import Mathlib

/-!
Shallow embedding of the photo-gallery page (`src/app/page.tsx`).

The page is a single React component (`PhotoGallery`) talking to two
external collaborators through a Supabase client: an object store
(bucket `photos`) and a metadata table (`images`).  We embed:

* the data model (`ImageData`, matching the TypeScript interface);
* the collaborator state (`Env`: the bucket's objects and the table's
  rows) with the collaborator operations the page calls, modelled after
  their documented contracts (`select ... order by created_at desc`,
  `upload` with `upsert: false`, `remove`, `delete ... eq id`,
  `getPublicUrl` as pure URL concatenation);
* the component's in-memory state (`ControllerState`: `images`,
  `uploading`, `selectedFile`) and its handlers `fetchImages`,
  `handleUpload`, `handleDelete` as explicit state transformers.

Each network call can fail; failure is injected through an `Outcome`
parameter per call, matching the `{ data, error }` shapes the code
destructures.  Timestamps (`created_at`, `Date.now()`) are modelled as
naturals.
-/

/-- Outcome of one collaborator request: the `error` field of the
destructured response is either absent (`ok`) or present (`err`). -/
inductive Outcome where
  | ok : Outcome
  | err : Outcome
deriving DecidableEq, Repr

/-- The `ImageData` interface from `page.tsx`: one metadata row per
uploaded photo.  `created_at` is a timestamp (modelled as `Nat`). -/
structure ImageData where
  id : Nat
  created_at : Nat
  file_name : String
  file_size : Nat
  url : String
  storage_path : String
deriving DecidableEq, Repr

/-- One binary object in the `photos` storage bucket, with the options
the upload call attaches (`contentType`, `cacheControl`, and the
`metadata` record with `size` and `filename`). -/
structure StoredObject where
  path : String
  contentType : String
  cacheControl : String
  metaSize : String
  metaFilename : String
deriving DecidableEq, Repr

/-- Collaborator state: the objects in the `photos` bucket and the rows
of the `images` table. -/
structure Env where
  storage : List StoredObject
  table : List ImageData
deriving DecidableEq, Repr

/-- A pending file selection: name, size (bytes) and MIME type, the
three attributes of the browser `File` that `handleUpload` reads. -/
structure FileData where
  name : String
  size : Nat
  type : String
deriving DecidableEq, Repr

/-- The component's React state: `images`, `uploading`, `selectedFile`. -/
structure ControllerState where
  images : List ImageData
  uploading : Bool
  selectedFile : Option FileData
deriving DecidableEq, Repr

/-- `b` is at least as new as `a` is at least as... : row `a` sorts
before row `b` when `a.created_at ≥ b.created_at` (newest first).  This
is the order `order("created_at", { ascending: false })` requests. -/
def byNewest (a b : ImageData) : Prop := b.created_at ≤ a.created_at

instance : DecidableRel byNewest := fun _ _ => Nat.decLe _ _

instance : IsTotal ImageData byNewest :=
  ⟨fun a b => Nat.le_total b.created_at a.created_at⟩

instance : IsTrans ImageData byNewest :=
  ⟨fun _ _ _ h h' => Nat.le_trans h' h⟩

/-- The metadata store's answer to
`from("images").select("*").order("created_at", { ascending: false })`:
all rows, sorted by `created_at` descending. -/
def dbSelectOrdered (t : List ImageData) : List ImageData :=
  t.insertionSort byNewest

/-- The storage bucket's answer to `upload(path, file, { upsert: false, ... })`:
fails when the request fails or the key already exists (non-overwriting);
otherwise stores the object tagged with content type, cache control and
the size/filename metadata. -/
def storageUpload (path : String) (f : FileData) (o : Outcome)
    (st : List StoredObject) : Option (List StoredObject) :=
  match o with
  | .err => none
  | .ok =>
    if st.any (fun ob => ob.path = path) then none
    else some (⟨path, f.type, "3600", toString f.size, f.name⟩ :: st)

/-- The storage bucket's answer to `remove([path])`: drops every object
stored under `path` (or fails). -/
def storageRemove (path : String) (o : Outcome)
    (st : List StoredObject) : Option (List StoredObject) :=
  match o with
  | .err => none
  | .ok => some (st.filter (fun ob => ob.path ≠ path))

/-- The metadata store's answer to `from("images").delete().eq("id", id)`:
drops every row whose `id` matches (or fails). -/
def dbDelete (id : Nat) (o : Outcome)
    (t : List ImageData) : Option (List ImageData) :=
  match o with
  | .err => none
  | .ok => some (t.filter (fun r => r.id ≠ id))

/-- `fetchImages`: on error, log and return, leaving state untouched;
on success, replace `images` with the fetched, ordered rows. -/
def fetchImages (o : Outcome) (env : Env) (s : ControllerState) :
    ControllerState :=
  match o with
  | .err => s
  | .ok => { s with images := dbSelectOrdered env.table }

/-- The storage key `handleUpload` builds: `` `${Date.now()}-${selectedFile.name}` ``. -/
def uploadFilePath (now : Nat) (f : FileData) : String :=
  toString now ++ "-" ++ f.name

/-- `setUploading(true)` at the top of the `try` block. -/
def uploadBegin (s : ControllerState) : ControllerState :=
  { s with uploading := true }

/-- `setUploading(false)` in the `finally` block. -/
def uploadFinally (s : ControllerState) : ControllerState :=
  { s with uploading := false }

/-- The body of `handleUpload`'s `try` block after `setUploading(true)`,
run with the selected file `f` in hand: build the storage key, issue the
storage write; on error, throw to the `catch` (which only logs); on
success, refresh via `fetchImages` and clear the selection.  `upOut` and
`fetchOut` are the outcomes of the two network calls. -/
def handleUploadBody (now : Nat) (upOut fetchOut : Outcome) (f : FileData)
    (env : Env) (s : ControllerState) : Env × ControllerState :=
  let filePath := uploadFilePath now f
  match storageUpload filePath f upOut env.storage with
  | none => (env, s)
  | some storage' =>
    let env' : Env := { env with storage := storage' }
    let s' := fetchImages fetchOut env' s
    (env', { s' with selectedFile := none })

/-- `handleUpload`: early-return when no file is selected; otherwise set
`uploading`, run the try-block body, and reset `uploading` in `finally`
on both the success and the failure path. -/
def handleUpload (now : Nat) (upOut fetchOut : Outcome)
    (env : Env) (s : ControllerState) : Env × ControllerState :=
  match s.selectedFile with
  | none => (env, s)
  | some f =>
    let p := handleUploadBody now upOut fetchOut f env (uploadBegin s)
    (p.1, uploadFinally p.2)

/-- `handleDelete(id, path)`: remove the object from storage; on error,
throw to the `catch` (log only).  Then delete the metadata row; on
error, throw (log only).  Then refresh via `fetchImages`.  `remOut`,
`delOut`, `fetchOut` are the outcomes of the three network calls. -/
def handleDelete (id : Nat) (path : String)
    (remOut delOut fetchOut : Outcome)
    (env : Env) (s : ControllerState) : Env × ControllerState :=
  match storageRemove path remOut env.storage with
  | none => (env, s)
  | some storage' =>
    let env1 : Env := { env with storage := storage' }
    match dbDelete id delOut env1.table with
    | none => (env1, s)
    | some table' =>
      let env2 : Env := { env1 with table := table' }
      (env2, fetchImages fetchOut env2 s)

/-- `getPublicImageUrl`: `supabase.storage.from('photos').getPublicUrl`
performs no request; per the client's contract it concatenates the
project base URL with the object's public route. -/
def getPublicImageUrl (supabaseUrl : String) (storage_path : String) :
    String :=
  supabaseUrl ++ "/storage/v1/object/public/photos/" ++ storage_path

/-- `getPublicImageUrl` viewed as an operation on the whole system,
returning the URL alongside the (untouched) collaborator and controller
state; used to state that resolving a URL has no side effects. -/
def resolvePublicUrlOp (supabaseUrl storage_path : String)
    (env : Env) (s : ControllerState) :
    String × Env × ControllerState :=
  (getPublicImageUrl supabaseUrl storage_path, env, s)

/-- The upload button's `disabled` prop: `!selectedFile || uploading`. -/
def uploadButtonDisabled (s : ControllerState) : Bool :=
  s.selectedFile.isNone || s.uploading

/-- The file input's `disabled` prop: `uploading`. -/
def fileInputDisabled (s : ControllerState) : Bool :=
  s.uploading

/-! ### Helper lemmas -/

/-- Every digit character produced for a remainder below ten is a
decimal digit. -/
theorem digitChar_isDigit_of_lt : ∀ m, m < 10 → (Nat.digitChar m).isDigit = true := by
  decide

/-- `Nat.toDigitsCore` in base 10 only ever emits decimal digits. -/
theorem toDigitsCore_all_isDigit (fuel : Nat) : ∀ (n : Nat) (acc : List Char),
    acc.all Char.isDigit = true →
    (Nat.toDigitsCore 10 fuel n acc).all Char.isDigit = true := by
  induction fuel with
  | zero => intro n acc h; simpa [Nat.toDigitsCore] using h
  | succ fuel ih =>
    intro n acc h
    have hd : (Nat.digitChar (n % 10)).isDigit = true :=
      digitChar_isDigit_of_lt _ (Nat.mod_lt n (by decide))
    simp only [Nat.toDigitsCore]
    by_cases h0 : n / 10 = 0
    · simp [h0, hd, h]
    · simp only [h0, if_false]
      exact ih _ _ (by simp [hd, h])

/-- `Nat.toDigitsCore` never shortens its accumulator. -/
theorem toDigitsCore_length_le (fuel : Nat) : ∀ (n : Nat) (acc : List Char),
    acc.length ≤ (Nat.toDigitsCore 10 fuel n acc).length := by
  induction fuel with
  | zero => intro n acc; simp [Nat.toDigitsCore]
  | succ fuel ih =>
    intro n acc
    simp only [Nat.toDigitsCore]
    by_cases h0 : n / 10 = 0
    · simp [h0]
    · simp only [h0, if_false]
      exact Nat.le_trans (Nat.le_succ _) (ih (n / 10) ((n % 10).digitChar :: acc))

/-- The decimal representation of a natural number consists of decimal
digits only. -/
theorem natRepr_all_isDigit (n : Nat) : (toString n).data.all Char.isDigit = true := by
  show (Nat.toDigits 10 n).all Char.isDigit = true
  exact toDigitsCore_all_isDigit _ _ _ rfl

/-- The decimal representation of a natural number is never empty. -/
theorem natRepr_ne_empty (n : Nat) : (toString n).data ≠ [] := by
  show Nat.toDigits 10 n ≠ []
  have h : 1 ≤ (Nat.toDigits 10 n).length := by
    simp only [Nat.toDigits, Nat.toDigitsCore]
    by_cases h0 : n / 10 = 0
    · simp [h0]
    · simp only [h0, if_false]
      exact Nat.le_trans (by simp) (toDigitsCore_length_le _ _ _)
  intro hnil
  rw [hnil] at h
  exact Nat.not_succ_le_zero 0 h

/-! ### Sample data for concrete witnesses -/

/-- The spec's scenario file: `"cat.png"`, 2048 bytes. -/
def sampleFile : FileData := ⟨"cat.png", 2048, "image/png"⟩

/-- A stored object as produced by uploading `sampleFile` at time 17. -/
def sampleObj : StoredObject := ⟨"17-cat.png", "image/png", "3600", "2048", "cat.png"⟩

/-- A metadata row referencing `sampleObj`. -/
def sampleRec : ImageData := ⟨1, 5, "cat.png", 2048, "/photos/17-cat.png", "17-cat.png"⟩

/-- A collaborator state holding `sampleObj` and `sampleRec`. -/
def sampleEnv : Env := ⟨[sampleObj], [sampleRec]⟩

/-- A controller state with `sampleFile` selected. -/
def sampleState : ControllerState := ⟨[], false, some sampleFile⟩

/-! ### Claims -/

/-- C5: for every invocation of `fetchImages`, on success the fetched,
ordered records replace the in-memory image list (and nothing else
changes), and on collaborator failure the prior state is left completely
unchanged, the error being only logged. -/
theorem C5_fetchImages_replace_or_stale (env : Env) (s : ControllerState) :
    fetchImages .ok env s = { s with images := dbSelectOrdered env.table } ∧
    fetchImages .err env s = s :=
  ⟨rfl, rfl⟩

/-- C3: `handleDelete` removes the object at the storage path, then
deletes the metadata row with the matching id, then refreshes the list
from the resulting store; when the object-removal step fails, it aborts,
returning collaborator state and controller state unchanged (the
metadata record survives and no refresh occurs). -/
theorem C3_delete_order_and_abort (id : Nat) (path : String)
    (d fo : Outcome) (env : Env) (s : ControllerState) :
    handleDelete id path .err d fo env s = (env, s) ∧
    (handleDelete id path .ok .ok .ok env s).1.storage
        = env.storage.filter (fun ob => ob.path ≠ path) ∧
    (handleDelete id path .ok .ok .ok env s).1.table
        = env.table.filter (fun r => r.id ≠ id) ∧
    (handleDelete id path .ok .ok .ok env s).2
        = fetchImages .ok (handleDelete id path .ok .ok .ok env s).1 s :=
  ⟨rfl, rfl, rfl, rfl⟩

/-- C9: `getPublicImageUrl` is a pure derivation from a storage path to
a URL: the system-level operation returns collaborator and controller
state unchanged, the URL does not depend on any state, and iterating the
operation any number of times leaves the state fixed. -/
theorem C9_resolvePublicUrl_pure (u p : String) (env env2 : Env)
    (s s2 : ControllerState) (n : Nat) :
    (resolvePublicUrlOp u p env s).2 = (env, s) ∧
    (resolvePublicUrlOp u p env s).1 = (resolvePublicUrlOp u p env2 s2).1 ∧
    (fun es : Env × ControllerState =>
      (resolvePublicUrlOp u p es.1 es.2).2)^[n] (env, s) = (env, s) := by
  refine ⟨rfl, rfl, ?_⟩
  have h : (fun es : Env × ControllerState =>
      (resolvePublicUrlOp u p es.1 es.2).2) = id := rfl
  rw [h, Function.iterate_id, id]

/-- C10: invoking `handleUpload` with no file selected is a complete
no-op: collaborator state and controller state (image list, selection,
`uploading` flag) are returned unchanged, for any outcome of the network
calls that are therefore never made. -/
theorem C10_upload_noop_without_selection (now : Nat) (upOut fo : Outcome)
    (env : Env) (s : ControllerState) (h : s.selectedFile = none) :
    handleUpload now upOut fo env s = (env, s) := by
  unfold handleUpload
  rw [h]

/-- C10 witness: the no-op at a concrete state with no selected file. -/
theorem C10_upload_noop_without_selection_witness :
    handleUpload 17 .ok .ok sampleEnv ⟨[], false, none⟩
      = (sampleEnv, ⟨[], false, none⟩) :=
  C10_upload_noop_without_selection 17 .ok .ok sampleEnv ⟨[], false, none⟩ rfl

/-- C4: when the object-storage write fails, `handleUpload` aborts: the
collaborator state (in particular the metadata table) is unchanged, no
refresh happens (the image list is unchanged), and the selection is kept;
only the `uploading` flag is reset by the `finally` block. -/
theorem C4_upload_storage_failure_aborts (now : Nat) (fo : Outcome)
    (env : Env) (s : ControllerState) (f : FileData)
    (hf : s.selectedFile = some f) :
    handleUpload now .err fo env s = (env, uploadFinally s) ∧
    (handleUpload now .err fo env s).1.table = env.table ∧
    (handleUpload now .err fo env s).2.images = s.images ∧
    (handleUpload now .err fo env s).2.selectedFile = s.selectedFile := by
  have h1 : handleUpload now .err fo env s = (env, uploadFinally s) := by
    unfold handleUpload
    rw [hf]
    rfl
  exact ⟨h1, by rw [h1], by rw [h1]; rfl, by rw [h1]; rfl⟩

/-- C4 witness: a failed storage write at a concrete selected file leaves
the table, the image list and the selection untouched. -/
theorem C4_upload_storage_failure_aborts_witness :
    handleUpload 17 .err .ok sampleEnv sampleState
      = (sampleEnv, uploadFinally sampleState) :=
  (C4_upload_storage_failure_aborts 17 .ok sampleEnv sampleState sampleFile rfl).1

/-- C6: `handleUpload` with a selected file runs its network body from
the state produced by `setUploading(true)` (so the flag is raised before
the request begins), the final state has the flag reset to `false` on
both the success and the failure path, and whenever the flag is raised
both the upload button and the file input are disabled. -/
theorem C6_uploading_flag_guard (now : Nat) (upOut fo : Outcome)
    (env : Env) (s : ControllerState) (f : FileData)
    (hf : s.selectedFile = some f) :
    (uploadBegin s).uploading = true ∧
    handleUpload now upOut fo env s =
      ((handleUploadBody now upOut fo f env (uploadBegin s)).1,
        uploadFinally (handleUploadBody now upOut fo f env (uploadBegin s)).2) ∧
    (handleUpload now upOut fo env s).2.uploading = false ∧
    (∀ s2 : ControllerState, s2.uploading = true →
      uploadButtonDisabled s2 = true ∧ fileInputDisabled s2 = true) := by
  have h1 : handleUpload now upOut fo env s =
      ((handleUploadBody now upOut fo f env (uploadBegin s)).1,
        uploadFinally (handleUploadBody now upOut fo f env (uploadBegin s)).2) := by
    unfold handleUpload
    rw [hf]
  refine ⟨rfl, h1, by rw [h1]; rfl, ?_⟩
  intro s2 h2
  exact ⟨by simp [uploadButtonDisabled, h2], by simp [fileInputDisabled, h2]⟩

/-- C6 witness: after a concrete upload the flag is back to `false`, and
in the raised-flag state both controls are disabled. -/
theorem C6_uploading_flag_guard_witness :
    (handleUpload 17 .ok .ok sampleEnv sampleState).2.uploading = false ∧
    uploadButtonDisabled (uploadBegin sampleState) = true ∧
    fileInputDisabled (uploadBegin sampleState) = true := by
  have h := C6_uploading_flag_guard 17 .ok .ok sampleEnv sampleState sampleFile rfl
  exact ⟨h.2.2.1, (h.2.2.2 (uploadBegin sampleState) h.1).1,
    (h.2.2.2 (uploadBegin sampleState) h.1).2⟩

/-- C2: when the object removal succeeds but the metadata deletion
fails, `handleDelete` leaves the metadata row in place with no
compensating action (the controller state is returned unchanged), the
object is gone from storage, and a subsequent successful `fetchImages`
still returns the now-orphaned record. -/
theorem C2_delete_dangling_record (env : Env) (s s2 : ControllerState)
    (r : ImageData) (fo : Outcome) (hr : r ∈ env.table) :
    (handleDelete r.id r.storage_path .ok .err fo env s).1.table = env.table ∧
    (handleDelete r.id r.storage_path .ok .err fo env s).2 = s ∧
    (∀ ob ∈ (handleDelete r.id r.storage_path .ok .err fo env s).1.storage,
      ob.path ≠ r.storage_path) ∧
    r ∈ (fetchImages .ok (handleDelete r.id r.storage_path .ok .err fo env s).1 s2).images := by
  refine ⟨rfl, rfl, ?_, ?_⟩
  · intro ob hob
    have : ob ∈ env.storage.filter (fun o => o.path ≠ r.storage_path) := hob
    exact of_decide_eq_true (List.mem_filter.mp this).2
  · show r ∈ dbSelectOrdered env.table
    unfold dbSelectOrdered
    exact (List.mem_insertionSort byNewest).mpr hr

/-- C2 witness: a concrete dangling-reference run on `sampleEnv`. -/
theorem C2_delete_dangling_record_witness :
    sampleRec ∈ (fetchImages .ok
      (handleDelete sampleRec.id sampleRec.storage_path .ok .err .ok sampleEnv sampleState).1
      sampleState).images :=
  (C2_delete_dangling_record sampleEnv sampleState sampleState sampleRec .ok
    (by decide)).2.2.2

/-- C7: a successful upload stores the binary under the key
`<timestamp>-<file name>` (whose prefix is a nonempty string of decimal
digits) in non-overwriting mode — the write fails whenever the key is
already taken — with the content type, cache control and size/filename
metadata attached to the object. -/
theorem C7_upload_key_and_metadata (now : Nat) (fo : Outcome)
    (env : Env) (s : ControllerState) (f : FileData)
    (hf : s.selectedFile = some f)
    (hfresh : env.storage.any (fun ob => ob.path = uploadFilePath now f) = false) :
    (handleUpload now .ok fo env s).1.storage =
      ⟨uploadFilePath now f, f.type, "3600", toString f.size, f.name⟩ :: env.storage ∧
    uploadFilePath now f = toString now ++ "-" ++ f.name ∧
    (toString now).data.all Char.isDigit = true ∧
    (toString now).data ≠ [] ∧
    (∀ (f2 : FileData) (o : Outcome) (st : List StoredObject),
      st.any (fun ob => ob.path = uploadFilePath now f) = true →
      storageUpload (uploadFilePath now f) f2 o st = none) := by
  refine ⟨?_, rfl, natRepr_all_isDigit now, natRepr_ne_empty now, ?_⟩
  · unfold handleUpload
    rw [hf]
    show (handleUploadBody now .ok fo f env (uploadBegin s)).1.storage = _
    unfold handleUploadBody storageUpload
    simp [hfresh]
  · intro f2 o st h
    cases o with
    | err => rfl
    | ok => simp [storageUpload, h]

/-- C7 witness: uploading `sampleFile` at time 17 into empty stores puts
exactly the tagged object under the key `"17-cat.png"`. -/
theorem C7_upload_key_and_metadata_witness :
    ((⟨[], []⟩ : Env).storage.any
      (fun ob => ob.path = uploadFilePath 17 sampleFile) = false) ∧
    (handleUpload 17 .ok .ok ⟨[], []⟩ ⟨[], false, some sampleFile⟩).1.storage =
      ⟨uploadFilePath 17 sampleFile, sampleFile.type, "3600",
        toString sampleFile.size, sampleFile.name⟩ :: (⟨[], []⟩ : Env).storage :=
  ⟨rfl, (C7_upload_key_and_metadata 17 .ok ⟨[], []⟩ ⟨[], false, some sampleFile⟩
    sampleFile rfl rfl).1⟩

/-- C8: for a table whose rows carry pairwise-distinct timestamps, a
successful `fetchImages` places into state a list that is strictly
descending in `created_at` (newest first). -/
theorem C8_listImages_sorted_desc (env : Env) (s : ControllerState)
    (hdist : env.table.Pairwise (fun a b => a.created_at ≠ b.created_at)) :
    (fetchImages .ok env s).images.Pairwise
      (fun a b => b.created_at < a.created_at) := by
  have hsorted : List.Sorted byNewest (dbSelectOrdered env.table) :=
    List.sorted_insertionSort byNewest env.table
  have hperm : List.Perm (dbSelectOrdered env.table) env.table :=
    List.perm_insertionSort byNewest env.table
  have hdist2 : (dbSelectOrdered env.table).Pairwise
      (fun a b => a.created_at ≠ b.created_at) := by
    refine (List.Perm.pairwise_iff ?_ hperm).mpr hdist
    intro a b h
    exact h.symm
  show (dbSelectOrdered env.table).Pairwise (fun a b => b.created_at < a.created_at)
  exact (hsorted.and hdist2).imp
    (fun h => Nat.lt_of_le_of_ne h.1 (fun e => h.2 e.symm))

/-- C8 witness: two concrete rows with distinct timestamps come back
newest first. -/
theorem C8_listImages_sorted_desc_witness :
    (fetchImages .ok ⟨[], [⟨1, 5, "a.png", 10, "", "k1"⟩, ⟨2, 9, "b.png", 20, "", "k2"⟩]⟩
      ⟨[], false, none⟩).images.Pairwise
      (fun a b => b.created_at < a.created_at) :=
  C8_listImages_sorted_desc
    ⟨[], [⟨1, 5, "a.png", 10, "", "k1"⟩, ⟨2, 9, "b.png", 20, "", "k2"⟩]⟩
    ⟨[], false, none⟩ (by decide)

/-- C1: the upload flow contains no metadata insert: after a fully
successful upload of `"cat.png"` (2048 bytes) into empty stores, the
object is present in storage, yet the `images` table is still empty and
the next successful `fetchImages` returns an empty list — the record
count does not increase by one and no matching record exists. -/
theorem C1_upload_creates_no_metadata_record :
    (handleUpload 17 .ok .ok ⟨[], []⟩ ⟨[], false, some sampleFile⟩).1.storage =
      [⟨"17-cat.png", "image/png", "3600", "2048", "cat.png"⟩] ∧
    (handleUpload 17 .ok .ok ⟨[], []⟩ ⟨[], false, some sampleFile⟩).1.table = [] ∧
    (fetchImages .ok (handleUpload 17 .ok .ok ⟨[], []⟩ ⟨[], false, some sampleFile⟩).1
      (handleUpload 17 .ok .ok ⟨[], []⟩ ⟨[], false, some sampleFile⟩).2).images = [] := by
  decide
